import Mathlib

/-!
PolyMirror — verification of the event classifier and mirror-decision engine.

Shallow embedding of the core of the `polymirror` repository:

* `listener.py` — `process_event` (event classification, fill-price
  computation, gating of the mirror-trade call) and the poll/reconnect
  cursor logic of `start_listener`;
* `executor.py` — `execute_copy_trade` (config gate, client init, quote
  fetch, slippage guard, sizing, order submission) and its trade-log
  side effects.

Python floats are modelled as exact rationals (`ℚ`); the raw on-chain
amounts and asset ids are `ℕ` (Solidity `uint256` values, far below
overflow in all scenarios considered); addresses are `String`s compared
after lower-casing, as in the source.  Fallible external calls
(config load, client init, order-book fetch, price parse, order
submission) are modelled by an explicit environment record so that every
`try/except` branch of the source is a reachable branch of the Lean
function.
-/

namespace PolyMirror

/-- Trade status as written into the `trades` table (`"SUCCESS"` / `"FAILED"`). -/
inductive Status where
  | SUCCESS
  | FAILED
deriving DecidableEq, Repr, BEq

/-- The mutable `config.json` contents, as read by both modules.
Every field is read with `config.get(key, default)` in the source, so each
field is an `Option` here and the source's defaults are applied at the
use sites (`is_active` → `False`, `target_wallet` → `""`,
`copy_ratio` → `0.1`, `max_cap_usdc` → `500.0`). -/
structure Config where
  is_active : Option Bool
  target_wallet : Option String
  copy_ratio : Option ℚ
  max_cap_usdc : Option ℚ
deriving Repr

/-- Arguments of one `OrderFilled` event, as read by `process_event`
(`listener.py` lines 71–76).  `maker`/`taker` are read with
`event_args.get(..., "")`, hence `Option String`; the numeric fields are
read with default `0`, and an absent numeric field is indistinguishable
from a present `0`, so they are plain `ℕ`. -/
structure EventArgs where
  maker : Option String
  taker : Option String
  makerAssetId : ℕ
  takerAssetId : ℕ
  makerAmountFilled : ℕ
  takerAmountFilled : ℕ
deriving Repr

/-- Trade direction (`action` variable of `process_event`). -/
inductive Side where
  | BUY
  | SELL
deriving DecidableEq, Repr, BEq

/-- The classification derived by `process_event` before the price
computation: direction, instrument id, quote (USDC) amount and base
(outcome-token) amount, still in fixed-point units. -/
structure Classified where
  action : Side
  token_id : ℕ
  usdc_amount : ℕ
  token_amount : ℕ
deriving DecidableEq, Repr

/-- Python's `str.lower()` as applied to the strings that occur here
(hex addresses and `""`, all ASCII): every character is mapped through
`Char.toLower`.  This is `String.toLower` restated by structural
recursion on the character list so that concrete instances reduce inside
the kernel. -/
def lowercase (s : String) : String := ⟨s.data.map Char.toLower⟩

/-- `maker == target_wallet` after lower-casing both sides
(`listener.py` lines 70–71, 79). -/
def isMakerTarget (cfg : Config) (e : EventArgs) : Bool :=
  lowercase (e.maker.getD "") == lowercase (cfg.target_wallet.getD "")

/-- `taker == target_wallet` after lower-casing both sides
(`listener.py` lines 70, 72, 80). -/
def isTakerTarget (cfg : Config) (e : EventArgs) : Bool :=
  lowercase (e.taker.getD "") == lowercase (cfg.target_wallet.getD "")

/-- The classification step of `process_event` (`listener.py`
lines 79–134): `none` when the target wallet is neither maker nor taker,
otherwise the direction / token-id / amount selection of the four-way
`if` cascade.  The maker branch takes priority, exactly as in the
source's `if is_maker: ... else: # is_taker`. -/
def classify (cfg : Config) (e : EventArgs) : Option Classified :=
  let is_maker := isMakerTarget cfg e
  let is_taker := isTakerTarget cfg e
  if ¬ (is_maker || is_taker) then
    none
  else if is_maker then
    if e.makerAssetId == 0 then
      some ⟨Side.BUY, e.takerAssetId, e.makerAmountFilled, e.takerAmountFilled⟩
    else
      some ⟨Side.SELL, e.makerAssetId, e.takerAmountFilled, e.makerAmountFilled⟩
  else
    if e.takerAssetId == 0 then
      some ⟨Side.BUY, e.makerAssetId, e.takerAmountFilled, e.makerAmountFilled⟩
    else
      some ⟨Side.SELL, e.takerAssetId, e.makerAmountFilled, e.takerAmountFilled⟩

/-- Fill-price computation of `process_event` (`listener.py`
lines 147–154): both fixed-point amounts are scaled by `10^6` and the
price is their quotient, or `0` when the token amount is zero. -/
def filled_price (usdc_amount token_amount : ℕ) : ℚ :=
  let usdc_human : ℚ := (usdc_amount : ℚ) / 1000000
  let token_human : ℚ := (token_amount : ℚ) / 1000000
  if token_amount > 0 then usdc_human / token_human else 0

/-- Observable effects of one `process_event` call: whether the market
label was resolved (`get_market_details` was called, line 157) and, if
the mirror trade was launched, the `(token_id, action, filled_price)`
arguments passed to `execute_copy_trade` (line 182). -/
structure ProcessEffects where
  labelResolved : Bool
  execCall : Option (ℕ × Side × ℚ)
deriving DecidableEq, Repr

/-- `process_event` (`listener.py` lines 51–189), abstracted to its
observable effects.  A non-applicable event returns before any side
effect (line 83); otherwise the label is resolved, and
`execute_copy_trade` is called iff `config.get("is_active", False)`
(lines 176–182). -/
def process_event (cfg : Config) (e : EventArgs) : ProcessEffects :=
  match classify cfg e with
  | none => ⟨false, none⟩
  | some c =>
      let fp := filled_price c.usdc_amount c.token_amount
      if cfg.is_active.getD false then
        ⟨true, some (c.token_id, c.action, fp)⟩
      else
        ⟨true, none⟩

/-- One row of the `trades` table as written by `log_trade_to_db`
(`executor.py` lines 64–99); the timestamp is irrelevant to every claim
and omitted.  `side` is the raw string passed through `process_event`
(`"BUY"` / `"SELL"` in practice, but any string in the source). -/
structure TradeLogRecord where
  market : String
  outcome : String
  side : String
  size : ℚ
  price : ℚ
  status : Status
deriving DecidableEq, Repr

/-- The order book returned by `client.get_order_book`, reduced to what
`execute_copy_trade` reads: the price fields of the ask and bid levels.
A `none` entry models a level whose `price` string fails `float(...)`
(`executor.py` lines 202–207, 214–219). -/
structure OrderBook where
  asks : List (Option ℚ)
  bids : List (Option ℚ)
deriving Repr

/-- Environment of one `execute_copy_trade` call: the outcome of each
external interaction the function performs, in source order.
`config` is the `config.json` load (lines 157–168); `market_question` /
`market_outcome` are the `get_market_details` result (lines 171–173,
total in the source — `asset_mapper.py` returns placeholders on every
failure); `clientInit` is `get_client()` (lines 177–186); `orderbook` is
`client.get_order_book` (lines 189–194); `orderArgsOk` is the
`OrderArgs(...)` construction (lines 288–300); `submitOk` is
`client.create_and_post_order` (lines 303–314). -/
structure ExecEnv where
  config : Except Unit Config
  market_question : String
  market_outcome : String
  clientInit : Except Unit Unit
  orderbook : Except Unit OrderBook
  orderArgsOk : Bool
  submitOk : Bool

/-- Result of one `execute_copy_trade` call: the `log_trade_to_db`
records it emitted (in order) and whether `client.create_and_post_order`
was invoked. -/
structure ExecResult where
  logs : List TradeLogRecord
  submitCalled : Bool
deriving DecidableEq, Repr

/-- The slippage guard of `execute_copy_trade` (`executor.py`
lines 235–245): with a supplied target price `p` and quoted price `q`,
the trade is aborted iff `abs (q - p) / p > 0.05`; `p = 0` raises
`ZeroDivisionError` in the source, which is caught and skips the check
(the guard does not fire). -/
def slippage_abort (current_price : ℚ) (target_price : Option ℚ) : Bool :=
  match target_price with
  | none => false
  | some p =>
      if p = 0 then false
      else decide (|current_price - p| / p > 5 / 100)

/-- `execute_copy_trade` (`executor.py` lines 126–326), abstracted over
an `ExecEnv` and reduced to its trade-log / submission effects.
Branches, in source order:
config-load failure returns with no log; client-init failure, order-book
fetch failure, empty `asks`/`bids`, unparseable best price each log one
`FAILED` record with size 0 (price 0, since `current_price` is not yet
bound); a fired slippage guard logs `FAILED` with size 0 at the quoted
price; the sizing block computes
`trade_size = min ((max_cap_usdc / copy_ratio) * copy_ratio) max_cap_usdc`,
where `copy_ratio = 0` raises `ZeroDivisionError` (caught: one `FAILED`
log) and a non-positive `trade_size` logs `FAILED`; an `OrderArgs`
construction failure logs `FAILED` with the computed size; finally the
order is posted and one `SUCCESS` (or `FAILED`) record is logged. -/
def execute_copy_trade (env : ExecEnv) (side : String)
    (target_price : Option ℚ) : ExecResult :=
  match env.config with
  | Except.error _ => ⟨[], false⟩
  | Except.ok config =>
    let market_name := env.market_question
    let outcome := env.market_outcome
    let failLog (size price : ℚ) : ExecResult :=
      ⟨[⟨market_name, outcome, side, size, price, Status.FAILED⟩], false⟩
    match env.clientInit with
    | Except.error _ => failLog 0 0
    | Except.ok _ =>
    match env.orderbook with
    | Except.error _ => failLog 0 0
    | Except.ok book =>
      let levels := if side == "BUY" then book.asks else book.bids
      match levels with
      | [] => failLog 0 0
      | none :: _ => failLog 0 0
      | some current_price :: _ =>
        if slippage_abort current_price target_price then
          failLog 0 current_price
        else
          let copy_ratio := config.copy_ratio.getD (1 / 10)
          let max_cap_usdc := config.max_cap_usdc.getD 500
          if copy_ratio = 0 then
            failLog 0 current_price
          else
            let base_size := max_cap_usdc / copy_ratio
            let calculated_size := base_size * copy_ratio
            let trade_size := min calculated_size max_cap_usdc
            if trade_size ≤ 0 then
              failLog 0 current_price
            else if ¬ env.orderArgsOk then
              ⟨[⟨market_name, outcome, side, trade_size, current_price,
                  Status.FAILED⟩], false⟩
            else if env.submitOk then
              ⟨[⟨market_name, outcome, side, trade_size, current_price,
                  Status.SUCCESS⟩], true⟩
            else
              ⟨[⟨market_name, outcome, side, trade_size, current_price,
                  Status.FAILED⟩], true⟩

/-- Inputs that drive one iteration of the `start_listener` polling loop
(`listener.py` lines 257–348), restricted to what moves the
`last_block` cursor: a successful poll observing chain height `h`
(lines 275–302), a connectivity fault followed by a successful reconnect
observing height `h` (lines 307–323), or a fault whose reconnect also
fails (lines 324–327). -/
inductive PollInput where
  | poll (h : ℕ)
  | faultReconnect (h : ℕ)
  | faultNoReconnect
deriving DecidableEq, Repr

/-- Cursor dynamics of the polling loop: a successful poll advances
`last_block` to `current_block` when new blocks exist (line 302); after
a connectivity fault, a successful reconnect sets
`last_block = w3.eth.block_number` — the height captured at reconnect
time (line 323) — and a failed reconnect leaves it unchanged. -/
def step_last_block (last : ℕ) (i : PollInput) : ℕ :=
  match i with
  | PollInput.poll h => if h > last then h else last
  | PollInput.faultReconnect h => h
  | PollInput.faultNoReconnect => last

/-- Block range scanned by one successful poll iteration (`listener.py`
lines 278–289): blocks `last_block + 1 .. current_block` when the chain
advanced, nothing otherwise. -/
def scannedBlocks (last current : ℕ) : List ℕ :=
  if current > last then List.range' (last + 1) (current - last) else []

/-! Concrete configurations and environments used to instantiate the
theorems below on executable inputs. -/

/-- Scenario config: target wallet `"0xABC"` (upper case on purpose, to
exercise the case-insensitive comparison), bot active. -/
def cfgScenario : Config := ⟨some true, some "0xABC", none, none⟩

/-- Scenario event: the target is maker, gives `100_000000` units of the
quote asset (id 0) for `200_000000` units of token `12345`. -/
def evScenario : EventArgs :=
  ⟨some "0xabc", some "0xdef", 0, 12345, 100000000, 200000000⟩

/-- Config with `copy_ratio = 0.1`, `max_cap_usdc = 500` (the source
defaults, here set explicitly). -/
def cfgDefaultSizing : Config := ⟨some true, some "t", some (1 / 10), some 500⟩

/-- Environment whose order book quotes a best ask of `2`. -/
def envQuote2 : ExecEnv :=
  ⟨Except.ok cfgDefaultSizing, "Q", "Yes", Except.ok (),
    Except.ok ⟨[some 2], [some 2]⟩, true, true⟩

/-- Environment whose order-book fetch succeeds but returns no asks and
no bids. -/
def envEmptyBook : ExecEnv :=
  ⟨Except.ok cfgDefaultSizing, "Q", "Yes", Except.ok (),
    Except.ok ⟨[], []⟩, true, true⟩

/-- Config with `copy_ratio = 1/2` and `max_cap_usdc = 100`. -/
def cfgHalfRatio : Config := ⟨some true, some "t", some (1 / 2), some 100⟩

/-- Healthy environment (best ask `1/2`) under `cfgHalfRatio`. -/
def envHalfRatio : ExecEnv :=
  ⟨Except.ok cfgHalfRatio, "Q", "Yes", Except.ok (),
    Except.ok ⟨[some (1 / 2)], [some (2 / 5)]⟩, true, true⟩

/-- Config with a negative `copy_ratio = -1/2` and `max_cap_usdc = 500`. -/
def cfgNegRatio : Config := ⟨some true, some "t", some (-(1 / 2)), some 500⟩

/-- Healthy environment (best ask `1/2`) under `cfgNegRatio`. -/
def envNegRatio : ExecEnv :=
  ⟨Except.ok cfgNegRatio, "Q", "Yes", Except.ok (),
    Except.ok ⟨[some (1 / 2)], [some (2 / 5)]⟩, true, true⟩

/-- Config whose `target_wallet` key is absent, bot active. -/
def cfgNoTarget : Config := ⟨some true, none, none, none⟩

/-- Event whose `maker` key is absent. -/
def evNoMaker : EventArgs := ⟨none, some "0xdef", 0, 5, 7, 9⟩

/-! Theorems. -/

/-- Whenever the target wallet is maker or taker, the classifier yields a
classification (no "skip"). -/
theorem classify_isSome_of_involved (cfg : Config) (e : EventArgs)
    (h : (isMakerTarget cfg e || isTakerTarget cfg e) = true) :
    (classify cfg e).isSome = true := by
  by_cases hM : isMakerTarget cfg e = true <;>
  by_cases h0 : e.makerAssetId = 0 <;>
  by_cases h1 : e.takerAssetId = 0 <;>
  simp_all [classify]

/-- Claim C3: for every settlement event in which the target account
participates, the classifier selects direction, instrument id, quote
amount and base amount by the four-case rule of the spec —
target-as-maker with `maker_asset_id = 0` gives BUY with
instrument `taker_asset_id`, quote `maker_amount_filled`, base
`taker_amount_filled`; target-as-maker with `maker_asset_id ≠ 0` gives
SELL with instrument `maker_asset_id` (quote and base swapped); and
symmetrically when the target is taker.  In particular, the maker giving
`100_000000` quote units for `200_000000` base units classifies as BUY
with `fill_price = 0.5`. -/
theorem classifier_four_case_rule :
    (∀ (cfg : Config) (e : EventArgs), isMakerTarget cfg e = true →
      classify cfg e = some (if e.makerAssetId = 0 then
          ⟨Side.BUY, e.takerAssetId, e.makerAmountFilled, e.takerAmountFilled⟩
        else
          ⟨Side.SELL, e.makerAssetId, e.takerAmountFilled, e.makerAmountFilled⟩))
    ∧ (∀ (cfg : Config) (e : EventArgs), isMakerTarget cfg e = false →
        isTakerTarget cfg e = true →
      classify cfg e = some (if e.takerAssetId = 0 then
          ⟨Side.BUY, e.makerAssetId, e.takerAmountFilled, e.makerAmountFilled⟩
        else
          ⟨Side.SELL, e.takerAssetId, e.makerAmountFilled, e.takerAmountFilled⟩))
    ∧ classify cfgScenario evScenario =
        some ⟨Side.BUY, 12345, 100000000, 200000000⟩
    ∧ filled_price 100000000 200000000 = 1 / 2 := by
  refine ⟨?_, ?_, ?_, ?_⟩
  · intro cfg e hm
    by_cases h0 : e.makerAssetId = 0 <;> simp [classify, hm, h0]
  · intro cfg e hm ht
    by_cases h1 : e.takerAssetId = 0 <;> simp [classify, hm, ht, h1]
  · decide
  · norm_num [filled_price]

/-- Witness for C3: the four-case rule applied to the concrete scenario
event (maker branch, `maker_asset_id = 0`). -/
theorem classifier_four_case_rule_witness :
    isMakerTarget cfgScenario evScenario = true ∧
    classify cfgScenario evScenario =
      some (if evScenario.makerAssetId = 0 then
          ⟨Side.BUY, evScenario.takerAssetId, evScenario.makerAmountFilled,
            evScenario.takerAmountFilled⟩
        else
          ⟨Side.SELL, evScenario.makerAssetId, evScenario.takerAmountFilled,
            evScenario.makerAmountFilled⟩) :=
  ⟨by decide, classifier_four_case_rule.1 cfgScenario evScenario (by decide)⟩

/-- Claim C6: the classifier's fill price is the quotient of the two
amounts scaled to decimal units (which, since both are scaled by the
same factor `10^6`, equals the quotient of the raw fixed-point amounts),
and a zero base amount yields fill price `0` — `filled_price` is a total
function, so no exception can be raised. -/
theorem filled_price_spec :
    (∀ usdc token : ℕ, 0 < token →
      filled_price usdc token =
        ((usdc : ℚ) / 1000000) / ((token : ℚ) / 1000000) ∧
      filled_price usdc token = (usdc : ℚ) / (token : ℚ))
    ∧ ∀ usdc : ℕ, filled_price usdc 0 = 0 := by
  constructor
  · intro usdc token ht
    have htq : (token : ℚ) ≠ 0 := Nat.cast_ne_zero.mpr ht.ne'
    have hscaled : filled_price usdc token =
        ((usdc : ℚ) / 1000000) / ((token : ℚ) / 1000000) := by
      simp [filled_price, ht]
    refine ⟨hscaled, ?_⟩
    rw [hscaled]
    field_simp
  · intro usdc
    simp [filled_price]

/-- Witness for C6: scaling-invariance of the fill price at the concrete
scenario amounts. -/
theorem filled_price_spec_witness :
    0 < 200000000 ∧
    filled_price 100000000 200000000 = (100000000 : ℚ) / 200000000 :=
  ⟨by norm_num, (filled_price_spec.1 100000000 200000000 (by norm_num)).2⟩

/-- Claim C9: an event in which neither maker nor taker matches the
target wallet (case-insensitively) is dropped before any side effect:
no label resolution and no `execute_copy_trade` call (hence no trade and
no log record). -/
theorem process_event_skips_uninvolved (cfg : Config) (e : EventArgs)
    (hm : isMakerTarget cfg e = false) (ht : isTakerTarget cfg e = false) :
    process_event cfg e = ⟨false, none⟩ := by
  simp [process_event, classify, hm, ht]

/-- Witness for C9: an event between two unrelated wallets under the
scenario config produces no effects. -/
theorem process_event_skips_uninvolved_witness :
    isMakerTarget cfgScenario evNoMaker = false ∧
    isTakerTarget cfgScenario evNoMaker = false ∧
    process_event cfgScenario evNoMaker = ⟨false, none⟩ :=
  ⟨by decide, by decide,
    process_event_skips_uninvolved cfgScenario evNoMaker (by decide) (by decide)⟩

/-- Claim C10: when the configured `target_wallet` is absent or empty,
an event whose `maker` (or `taker`) field is absent or empty is
classified as a target trade — both `dict.get(..., "")` defaults
lower-case to `""` and compare equal — so label resolution runs and,
when the bot is active, a mirror trade is attempted. -/
theorem empty_target_matches_empty_party (cfg : Config) (e : EventArgs)
    (htw : cfg.target_wallet.getD "" = "")
    (hp : e.maker.getD "" = "" ∨ e.taker.getD "" = "") :
    (process_event cfg e).labelResolved = true ∧
    (cfg.is_active.getD false = true →
      ((process_event cfg e).execCall).isSome = true) := by
  have hinv : (isMakerTarget cfg e || isTakerTarget cfg e) = true := by
    rcases hp with hp | hp
    · simp [isMakerTarget, hp, htw]
    · simp [isTakerTarget, hp, htw]
  have hc := classify_isSome_of_involved cfg e hinv
  rcases hcl : classify cfg e with _ | c
  · rw [hcl] at hc; simp at hc
  · cases ha : cfg.is_active.getD false <;>
      simp [process_event, hcl, ha]

/-- Witness for C10: absent `target_wallet` and absent `maker` trigger
label resolution and (bot active) a mirror-trade attempt. -/
theorem empty_target_matches_empty_party_witness :
    cfgNoTarget.target_wallet.getD "" = "" ∧
    (process_event cfgNoTarget evNoMaker).labelResolved = true ∧
    ((process_event cfgNoTarget evNoMaker).execCall).isSome = true := by
  have h := empty_target_matches_empty_party cfgNoTarget evNoMaker rfl
    (Or.inl rfl)
  exact ⟨rfl, h.1, h.2 rfl⟩

/-- The slippage guard fires exactly when a target price is supplied,
is nonzero, and the relative deviation exceeds 5%. -/
theorem slippage_abort_iff (q p : ℚ) :
    slippage_abort q (some p) = true ↔ p ≠ 0 ∧ |q - p| / p > 5 / 100 := by
  by_cases hp : p = 0 <;> simp [slippage_abort, hp]

/-- Claim C4: with config load, client init and quote fetch succeeding,
best quoted price `q`, target price `p`, and a sizing configuration that
would otherwise proceed (`copy_ratio = 0.1`, `max_cap_usdc = 500`), the
decision aborts as one `FAILED` record with size `0` and price `q` — and
no submission — if and only if `p ≠ 0` and `|q - p| / p > 0.05`.  Hence
at exactly 5% deviation the decision proceeds (the comparison is strict,
so the tolerance is inclusive), and `p = 0` disables the check instead
of failing. -/
theorem slippage_guard_boundary_iff (env : ExecEnv) (cfg : Config) (p q : ℚ)
    (hc : env.config = Except.ok cfg)
    (hr : cfg.copy_ratio = some (1 / 10))
    (hm : cfg.max_cap_usdc = some 500)
    (hcl : env.clientInit = Except.ok ())
    (hb : env.orderbook = Except.ok ⟨[some q], [some q]⟩) :
    (execute_copy_trade env "BUY" (some p) =
      ⟨[⟨env.market_question, env.market_outcome, "BUY", 0, q, Status.FAILED⟩],
        false⟩)
    ↔ p ≠ 0 ∧ |q - p| / p > 5 / 100 := by
  obtain ⟨c, mq, mo, ci, ob, oa, so⟩ := env
  simp only at hc hcl hb
  subst hc hcl hb
  obtain ⟨ia, tw, cr, mc⟩ := cfg
  simp only at hr hm
  subst hr hm
  rw [← slippage_abort_iff q p]
  by_cases hs : slippage_abort q (some p) = true
  · simp [execute_copy_trade, hs]
  · simp only [Bool.not_eq_true] at hs
    cases oa <;> cases so <;>
      simp [execute_copy_trade, hs]

/-- Witness for C4: target price `1`, quoted price `2` (100% deviation)
aborts with one `FAILED` record of size `0` at price `2`. -/
theorem slippage_guard_boundary_iff_witness :
    execute_copy_trade envQuote2 "BUY" (some 1) =
      ⟨[⟨"Q", "Yes", "BUY", 0, 2, Status.FAILED⟩], false⟩ :=
  (slippage_guard_boundary_iff envQuote2 cfgDefaultSizing 1 2
      rfl rfl rfl rfl rfl).mpr (by norm_num)

set_option maxHeartbeats 1000000 in
/-- Claim C5: every terminal path of `execute_copy_trade` writes exactly
one trade-log record, whose status is `SUCCESS` exactly when the order
was posted and accepted — except the config-load failure path, which
returns without logging. -/
theorem one_log_per_terminal_path (env : ExecEnv) (side : String)
    (tp : Option ℚ) :
    ((execute_copy_trade env side tp).logs.length =
      match env.config with
      | Except.error _ => 0
      | Except.ok _ => 1)
    ∧ (execute_copy_trade env side tp).logs.all
        (fun lg => decide (lg.status =
          if (execute_copy_trade env side tp).submitCalled && env.submitOk
          then Status.SUCCESS else Status.FAILED)) = true := by
  obtain ⟨c, mq, mo, ci, ob, oa, so⟩ := env
  cases c with
  | error u => simp [execute_copy_trade]
  | ok cfg =>
  cases ci with
  | error u => simp [execute_copy_trade]
  | ok u =>
  cases ob with
  | error u => simp [execute_copy_trade]
  | ok book =>
  obtain ⟨asks, bids⟩ := book
  cases hb : (side == "BUY") <;>
    [rcases bids with _ | ⟨po, rest⟩; rcases asks with _ | ⟨po, rest⟩] <;>
    (try rcases po with _ | pq) <;>
    simp [execute_copy_trade, hb] <;>
    split_ifs <;>
    simp_all

/-- Claim C7: after successful config load, client init and order-book
fetch, an empty ask list for a BUY (and symmetrically an empty bid list
for a SELL) terminates the decision with a single `FAILED` record of
size `0` and price `0`, and `create_and_post_order` is never called. -/
theorem empty_book_aborts_failed (env : ExecEnv) (cfg : Config)
    (tp : Option ℚ) (book : OrderBook)
    (hc : env.config = Except.ok cfg)
    (hcl : env.clientInit = Except.ok ())
    (hb : env.orderbook = Except.ok book) :
    (book.asks = [] → execute_copy_trade env "BUY" tp =
      ⟨[⟨env.market_question, env.market_outcome, "BUY", 0, 0,
          Status.FAILED⟩], false⟩)
    ∧ (book.bids = [] → execute_copy_trade env "SELL" tp =
      ⟨[⟨env.market_question, env.market_outcome, "SELL", 0, 0,
          Status.FAILED⟩], false⟩) := by
  obtain ⟨c, mq, mo, ci, ob, oa, so⟩ := env
  obtain ⟨asks, bids⟩ := book
  simp only at hc hcl hb
  subst hc hcl hb
  constructor <;> intro h <;> simp only at h <;> subst h <;>
    simp [execute_copy_trade]

/-- Witness for C7: the environment whose fetched order book is empty on
both sides aborts a BUY with one `FAILED` record, size `0`, price `0`,
and no submission. -/
theorem empty_book_aborts_failed_witness :
    execute_copy_trade envEmptyBook "BUY" none =
      ⟨[⟨"Q", "Yes", "BUY", 0, 0, Status.FAILED⟩], false⟩ :=
  (empty_book_aborts_failed envEmptyBook cfgDefaultSizing none ⟨[], []⟩
      rfl rfl rfl).1 rfl

/-- Claim C8: after a connectivity fault, a successful reconnect sets the
poll cursor to the chain height `h` captured at reconnect time, whatever
the previously processed height was; consequently any block at or below
`h` — in particular every settlement event emitted during the outage —
is outside every later scanned range and is skipped, not replayed. -/
theorem reconnect_resets_cursor (last h b h2 : ℕ) (hb : b ≤ h) :
    step_last_block last (PollInput.faultReconnect h) = h ∧
    b ∉ scannedBlocks (step_last_block last (PollInput.faultReconnect h)) h2 := by
  refine ⟨rfl, ?_⟩
  simp only [step_last_block, scannedBlocks]
  split
  · intro hmem
    rw [List.mem_range'_1] at hmem
    omega
  · simp

/-- Witness for C8: reconnecting at height 25 with cursor 10 resets the
cursor to 25, and outage block 18 is not scanned by the next poll up to
height 30. -/
theorem reconnect_resets_cursor_witness :
    step_last_block 10 (PollInput.faultReconnect 25) = 25 ∧
    18 ∉ scannedBlocks (step_last_block 10 (PollInput.faultReconnect 25)) 30 :=
  reconnect_resets_cursor 10 25 18 30 (by norm_num)

/-- Claim C1 (code bug): the claim — and the source's own sizing comment
and docstring — say the reference notional defaults to `max_cap_usdc`,
so the size should be `min (copy_ratio * max_cap_usdc) max_cap_usdc`.
The code instead divides the cap by the ratio first
(`base_size = max_cap_usdc / copy_ratio`), so the ratio cancels: at
`copy_ratio = 1/2`, `max_cap_usdc = 100` the submitted size is `100`,
while `min (1/2 * 100) 100 = 50`. -/
theorem sizing_cancels_copy_ratio :
    (execute_copy_trade envHalfRatio "BUY" (some (1 / 2))).logs =
      [⟨"Q", "Yes", "BUY", 100, 1 / 2, Status.SUCCESS⟩]
    ∧ min ((1 / 2 : ℚ) * 100) 100 = 50
    ∧ (100 : ℚ) ≠ 50 := by
  have h : execute_copy_trade envHalfRatio "BUY" (some (1 / 2)) =
      ⟨[⟨"Q", "Yes", "BUY", 100, 1 / 2, Status.SUCCESS⟩], true⟩ := by
    norm_num [execute_copy_trade, envHalfRatio, cfgHalfRatio, slippage_abort]
  refine ⟨by rw [h], by norm_num, by norm_num⟩

/-- Claim C2 (code bug): a negative `copy_ratio` (here `-1/2`, with
`max_cap_usdc = 500`) is not rejected: `(500 / (-1/2)) * (-1/2) = 500`,
the `trade_size ≤ 0` guard does not fire, and the order is submitted
with size `500` — contradicting the invariant that non-positive sizing
parameters abort with `FAILED` before submission. -/
theorem negative_ratio_submits_order :
    cfgNegRatio.copy_ratio.getD (1 / 10) < 0
    ∧ (execute_copy_trade envNegRatio "BUY" none).submitCalled = true
    ∧ (execute_copy_trade envNegRatio "BUY" none).logs =
        [⟨"Q", "Yes", "BUY", 500, 1 / 2, Status.SUCCESS⟩] := by
  have h : execute_copy_trade envNegRatio "BUY" none =
      ⟨[⟨"Q", "Yes", "BUY", 500, 1 / 2, Status.SUCCESS⟩], true⟩ := by
    norm_num [execute_copy_trade, envNegRatio, cfgNegRatio, slippage_abort]
  refine ⟨by norm_num [cfgNegRatio], by rw [h], by rw [h]⟩

end PolyMirror
